import Mathlib

/-!
Shallow embedding of the console-output parsing and metric-modeling engine of
`ogg_monitor.py` (Oracle GoldenGate → Zabbix monitoring script), together with
theorems settling the frozen claims about its specification.

The embedding follows the Python 2 source faithfully: list indexing, `list.index`,
`str.split`, `str.find` / `str.rfind`, slicing, `int()` and `re` idioms are modelled
as total Lean functions returning `Option` where the Python operation can raise,
and every `try/except` block of the source maps failures to the abort action its
handler performs (`sys.exit(1)` or an uncaught propagating exception).
-/

set_option autoImplicit false

namespace OggMonitor

/-- Is `p` a prefix of `s` (on character lists)? -/
def hasPref : List Char → List Char → Bool
  | [], _ => true
  | _ :: _, [] => false
  | p :: ps, c :: cs => p == c && hasPref ps cs

/-- First position (in characters) at which pattern `pat` occurs in the list, if any. -/
def findChAux (pat : List Char) : List Char → Nat → Option Nat
  | [], k => if hasPref pat [] then some k else none
  | c :: cs, k => if hasPref pat (c :: cs) then some k else findChAux pat cs (k + 1)

/-- First occurrence position of substring `pat` in `s`, if any. -/
def subFind? (s pat : String) : Option Nat :=
  findChAux pat.data s.data 0

/-- Python `pat in s` substring test. -/
def hasSub (s pat : String) : Bool :=
  (subFind? s pat).isSome

/-- Python `s.find(pat)`: first occurrence position, `-1` when absent. -/
def pyFind (s pat : String) : Int :=
  match subFind? s pat with
  | some k => (k : Int)
  | none => -1

/-- Last position at which `pat` occurs, scanning the whole list. -/
def rfindChAux (pat : List Char) : List Char → Nat → Option Nat → Option Nat
  | [], k, acc => if hasPref pat [] then some k else acc
  | c :: cs, k, acc =>
      rfindChAux pat cs (k + 1) (if hasPref pat (c :: cs) then some k else acc)

/-- Python `s.rfind(pat)`: last occurrence position, `-1` when absent. -/
def pyRfind (s pat : String) : Int :=
  match rfindChAux pat.data s.data 0 none with
  | some k => (k : Int)
  | none => -1

/-- Clamp a Python slice bound to `[0, n]`, resolving negative indices from the end. -/
def pyClamp (n : Nat) (i : Int) : Nat :=
  if i < 0 then (max ((n : Int) + i) 0).toNat else min i.toNat n

/-- Python slice `s[a:b]` with the clamping rules of CPython. -/
def pySlice (s : String) (a b : Int) : String :=
  let cs := s.data
  let st := pyClamp cs.length a
  let en := pyClamp cs.length b
  ⟨(cs.drop st).take (en - st)⟩

/-- Python slice `s[a:len(s)]`. -/
def pySliceFrom (s : String) (a : Int) : String :=
  pySlice s a (s.data.length : Int)

/-- Split a character list on a separator, keeping empty fields (Python `str.split(sep)`). -/
def splitChAux (sep : Char) : List Char → List Char → List String
  | [], acc => [⟨acc.reverse⟩]
  | c :: cs, acc =>
      if c == sep then ⟨acc.reverse⟩ :: splitChAux sep cs []
      else splitChAux sep cs (c :: acc)

/-- Python `s.split(sep)` for a one-character separator: empty fields are kept. -/
def pySplit (sep : Char) (s : String) : List String :=
  splitChAux sep s.data []

/-- `list(filter(None, s.split(' ')))`: whitespace-run tokenization used throughout the script. -/
def pyTokens (s : String) : List String :=
  (pySplit ' ' s).filter (fun t => t ≠ "")

/-- Python `s.lower()` (ASCII, which is all the script ever feeds it). -/
def pyLower (s : String) : String :=
  ⟨s.data.map Char.toLower⟩

/-- Python `s.upper()` (ASCII). -/
def pyUpper (s : String) : String :=
  ⟨s.data.map Char.toUpper⟩

/-- Whitespace characters recognized by Python `str.strip()` on this input alphabet. -/
def isWsCh (c : Char) : Bool :=
  c == ' ' || c == '\t' || c == '\n' || c == '\r'

/-- Python `s.strip()`. -/
def pyStrip (s : String) : String :=
  ⟨((s.data.dropWhile isWsCh).reverse.dropWhile isWsCh).reverse⟩

/-- A word character in the sense of Python 2 `re` `\w`: `[A-Za-z0-9_]`. -/
def isWordCh (c : Char) : Bool :=
  c.isAlpha || c.isDigit || c == '_'

/-- `re.sub('\W+', '', s)`: delete every non-word character. -/
def stripNonWord (s : String) : String :=
  ⟨s.data.filter isWordCh⟩

/-- Position of the first decimal digit in `s` (`re.search('\d', s)`), if any. -/
def firstDigit? (s : String) : Option Nat :=
  findChAux' s.data 0
where
  findChAux' : List Char → Nat → Option Nat
    | [], _ => none
    | c :: cs, k => if c.isDigit then some k else findChAux' cs (k + 1)

/-- Decimal value of a digit list (caller guarantees digits). -/
def digitsValAux : List Char → Nat → Nat
  | [], acc => acc
  | c :: cs, acc => digitsValAux cs (acc * 10 + (c.toNat - 48))

/-- Decimal value of a non-empty all-digit list, `none` otherwise. -/
def digitsVal? (cs : List Char) : Option Nat :=
  if cs.isEmpty then none
  else if cs.all Char.isDigit then some (digitsValAux cs 0)
  else none

/-- Python `int(s)`: strip whitespace, optional sign, non-empty digit run; `none` models `ValueError`. -/
def pyInt? (s : String) : Option Int :=
  match (pyStrip s).data with
  | [] => none
  | c :: rest =>
    if c = '-' then (digitsVal? rest).map (fun n => -(n : Int))
    else if c = '+' then (digitsVal? rest).map (fun n => (n : Int))
    else (digitsVal? (c :: rest)).map (fun n => (n : Int))

/-- Python `str(int(s))`, `none` on `ValueError`. -/
def pyIntStr? (s : String) : Option String :=
  (pyInt? s).map toString

/-- Python `l.index(x)` on lists of strings: position of the first match, `none` models `ValueError`. -/
def idxL? : List String → String → Option Nat
  | [], _ => none
  | x :: xs, y => if x == y then some 0 else (idxL? xs y).map (· + 1)

/-- Python `s.replace(',', '').replace('.', '')`: strip thousands/decimal separators. -/
def stripSeps (s : String) : String :=
  ⟨s.data.filter (fun c => !(c == ',' || c == '.'))⟩

/-- Insertion-ordered dictionary update: overwrite in place or append (`d[k] = v`). -/
def dictSet {α : Type} : List (String × α) → String → α → List (String × α)
  | [], k, v => [(k, v)]
  | (k', v') :: rest, k, v =>
      if k' == k then (k, v) :: rest else (k', v') :: dictSet rest k v

/-- How an abnormal path of the script terminates: a handled `sys.exit(1)` or an
uncaught propagating exception (also a non-zero exit, but without a handler). -/
inductive PyAbort where
  | exit1
  | uncaught
  deriving DecidableEq, Repr

/-! ## Section markers

The marker strings used by `parse_output_*` (source lines 502, 541–542, 608–609,
688–689, 745–746), and the marker lines that `prepare_ogg_script` embeds in
`shell printf` commands (source lines 425–436).  Note the manager start marker is
*emitted* with three trailing `=` but *searched* with four. -/

def infoStartMarker : String := "==== INFO * SECTION START ===="
def infoEndMarker : String := "==== INFO * SECTION END ===="
def infoAllStartMarker : String := "==== INFO ALL SECTION START ===="
def infoAllEndMarker : String := "==== INFO ALL SECTION END ===="
def getlagStartMarker : String := "==== GETLAG SECTION START ===="
def getlagEndMarker : String := "==== GETLAG SECTION END ===="
def mgrStartSearched : String := "==== MANAGER SECTION START ===="
def mgrEndMarker : String := "==== MANAGER SECTION END ===="

/-- The eight marker lines produced by the `shell printf` commands that
`prepare_ogg_script` writes into the console script (source lines 425–436).
Every marker line of a transcript produced by the script's own console script is
one of these. -/
def prepare_ogg_script_markers : List String :=
  ["==== INFO * SECTION START ====", "==== INFO * SECTION END ====",
   "==== INFO ALL SECTION START ====", "==== INFO ALL SECTION END ====",
   "==== GETLAG SECTION START ====", "==== GETLAG SECTION END ====",
   "==== MANAGER SECTION START ===", "==== MANAGER SECTION END ===="]

/-! ## Process registry state (`parse_output_info_section`)

The local variables of `parse_output_info_section` (source lines 526–538): the
discovery list, the three dictionaries, and the loop-carried per-process
registers.  Python 2 dictionaries are modelled as insertion-ordered association
lists.  A registry value is the positional list
`[trail, trail_type, seq, rba, scn, pid]` exactly as in the source. -/

structure InfoState where
  processList : List String := []
  statusDict : List (String × String) := []
  checkpointDict : List (String × String) := []
  processDict : List (String × List String) := []
  processName : String := ""
  processType : String := ""
  statusName : String := ""
  processTrail : String := ""
  processTrailType : String := ""
  processSeq : String := "0"
  processRba : String := "0"
  processScn : String := "0"
  processPid : String := "0"
  deriving DecidableEq, Repr

/-- The initial variable state of `parse_output_info_section` (source lines 526–538). -/
def initInfoState : InfoState := {}

/-- `if 'Process ID' in outlist[i]: process_pid = splitted_line[2]` (source lines 562–563).
Like every recognizer below, this sits *inside* the
`if splitted_line[0] in ('EXTRACT', 'REPLICAT')` branch, so `line`/`sl` are always
the process-opening line and its tokens. -/
def processIdStep (line : String) (sl : List String) (st : InfoState) :
    Except PyAbort InfoState :=
  if hasSub line "Process ID" then
    match sl.get? 2 with
    | none => .error .exit1
    | some pid => .ok { st with processPid := pid }
  else .ok st

/-- `if 'Trail Name' in outlist[i]` (source lines 568–574): for an EXTRACT, trail,
sequence, RBA and trail type are read from the *next* line's tokens at fixed
positions. -/
def trailNameStep (outlist : List String) (i : Nat) (line : String) (st : InfoState) :
    Except PyAbort InfoState :=
  if hasSub line "Trail Name" then
    if st.processType = "EXTRACT" then
      match outlist.get? (i + 1) with
      | none => .error .exit1
      | some nl =>
        let tl := pyTokens nl
        match tl.get? 0, tl.get? 1, tl.get? 2, tl.get? 4 with
        | some tr, some sq, some rb, some tt =>
            .ok { st with processTrail := tr, processSeq := sq, processRba := rb,
                          processTrailType := tt }
        | _, _, _, _ => .error .exit1
    else .ok st
  else .ok st

/-- `if 'Log Read Checkpoint File' in outlist[i]` (source lines 576–587): for a
REPLICAT, the checkpoint-file path is the line's fifth token; its trailing path
component is searched for the first digit (`re.search('\d', ...)`), the digit run
becomes the sequence via `str(int(...))`, the RBA is the next line's fourth token
and the trail is the path sliced up to the digit run.  The ` SCN ` recognizer is
nested inside this branch (source line 586). -/
def logReadStep (outlist : List String) (i : Nat) (line : String) (st : InfoState) :
    Except PyAbort InfoState :=
  if hasSub line "Log Read Checkpoint File" then
    let inner : Except PyAbort InfoState :=
      if st.processType = "REPLICAT" then
        let tl := pyTokens line
        match tl.get? 4 with
        | none => .error .exit1
        | some t4 =>
          let st := { st with processTrailType := "LOCALTRAIL" }
          match firstDigit? (pySliceFrom t4 (pyRfind t4 "/" + 1)) with
          | none => .error .exit1
          | some ds =>
            match pyIntStr? (pySliceFrom t4 ((ds : Int) + pyRfind t4 "/" + 1)) with
            | none => .error .exit1
            | some sq =>
              match outlist.get? (i + 1) with
              | none => .error .exit1
              | some nl =>
                match (pyTokens nl).get? 3 with
                | none => .error .exit1
                | some rb =>
                  .ok { st with processSeq := sq, processRba := rb,
                                processTrail := pySlice t4 0 (pyRfind t4 "/" + 1 + (ds : Int)) }
      else .ok st
    match inner with
    | .error e => .error e
    | .ok st =>
      if hasSub line " SCN " then
        .ok { st with processScn := pySlice line (pyFind line "(" + 1) (pyFind line ")") }
      else .ok st
  else .ok st

/-- `if 'Checkpoint Lag' in outlist[i]` (source lines 589–590): the display value is
the line's third token with thousands separators stripped, keyed by the current
process name. -/
def chkptLagStep (sl : List String) (line : String) (st : InfoState) :
    Except PyAbort InfoState :=
  if hasSub line "Checkpoint Lag" then
    match sl.get? 2 with
    | none => .error .exit1
    | some v => .ok { st with checkpointDict := dictSet st.checkpointDict st.processName (stripSeps v) }
  else .ok st

/-- `if process_name != '': process_dict[process_name] = [...]` (source lines 592–593). -/
def recordStep (st : InfoState) : InfoState :=
  if st.processName ≠ "" then
    let v := [st.processTrail, st.processTrailType, st.processSeq, st.processRba,
              st.processScn, st.processPid]
    { st with processDict := dictSet st.processDict st.processName v }
  else st

/-- One iteration of the `info *` detail loop (source lines 546–593).  Per the
source's indentation, *all* recognizers are nested inside the
`if splitted_line[0] in ('EXTRACT', 'REPLICAT')` branch: a line that does not open
a process record is not scanned at all.  Any exception maps to the enclosing
`except` handler, which exits with status 1. -/
def infoDetailLine (outlist : List String) (i : Nat) (st : InfoState) :
    Except PyAbort InfoState :=
  match outlist.get? i with
  | none => .error .exit1
  | some line =>
    let sl := pyTokens line
    match sl.get? 0 with
    | none => .error .exit1
    | some t0 =>
      if t0 = "EXTRACT" ∨ t0 = "REPLICAT" then
        match sl.get? 1 with
        | none => .error .exit1
        | some name =>
          let st := { st with
            processName := name, processType := t0,
            processList := st.processList ++ [name],
            processTrail := "", processSeq := "0", processRba := "0", processScn := "0" }
          match idxL? sl "Status" with
          | none => .error .exit1
          | some sIdx =>
            match sl.get? (sIdx + 1) with
            | none => .error .exit1
            | some sname =>
              let st := { st with statusName := sname }
              let st :=
                if pyStrip sname ≠ "" then
                  { st with statusDict := dictSet st.statusDict st.processName (pyStrip sname) }
                else st
              match processIdStep line sl st with
              | .error e => .error e
              | .ok st =>
                match trailNameStep outlist i line st with
                | .error e => .error e
                | .ok st =>
                  match logReadStep outlist i line st with
                  | .error e => .error e
                  | .ok st =>
                    match chkptLagStep sl line st with
                    | .error e => .error e
                    | .ok st => .ok (recordStep st)
      else .ok st

/-- The fixed service-daemon names recognized by the `info all` summary pass
(source line 615). -/
def serviceDaemonNames : List String :=
  ["MANAGER", "ADMINSRV", "ADMINSRVR", "DISTSRVR", "PMSRVR", "RECVSRVR"]

/-- One iteration of the `info all` summary loop (source lines 612–626): a daemon
line creates or overwrites a registry record with NONE/0 defaults and PID `-1`,
and records the second token as status when non-empty (stored unstripped). -/
def infoAllLine (outlist : List String) (i : Nat) (st : InfoState) :
    Except PyAbort InfoState :=
  match outlist.get? i with
  | none => .error .exit1
  | some line =>
    let sl := pyTokens line
    match sl.get? 0 with
    | none => .error .exit1
    | some t0 =>
      if t0 ∈ serviceDaemonNames then
        let st := { st with
          processName := t0,
          processList := st.processList ++ [t0],
          processTrail := "NONE", processSeq := "0", processRba := "0",
          processTrailType := "NONE", processScn := "0", processPid := "-1" }
        let v := [st.processTrail, st.processTrailType, st.processSeq, st.processRba,
                  st.processScn, st.processPid]
        let st := { st with processDict := dictSet st.processDict st.processName v }
        match sl.get? 1 with
        | none => .error .exit1
        | some s1 =>
          if pyStrip s1 ≠ "" then
            .ok { st with statusDict := dictSet st.statusDict st.processName s1 }
          else .ok st
      else .ok st

/-- `for i in range(start, start + fuel)` driving a per-line body, short-circuiting
on the abort its `except` handler performs. -/
def lineLoop (f : Nat → InfoState → Except PyAbort InfoState) :
    Nat → Nat → InfoState → Except PyAbort InfoState
  | _, 0, st => .ok st
  | i, fuel + 1, st =>
    match f i st with
    | .error e => .error e
    | .ok st' => lineLoop f (i + 1) fuel st'

/-- The detail pass of `parse_output_info_section` (source lines 539–598): locate
the `info *` window via `list.index` (a missing marker raises `ValueError`, which
the `except` handler turns into `sys.exit(1)`), and scan it only when
`parse_end > parse_start`; otherwise the window is skipped with no error. -/
def infoDetailPass (outlist : List String) (st : InfoState) : Except PyAbort InfoState :=
  match idxL? outlist infoStartMarker with
  | none => .error .exit1
  | some ps =>
    match idxL? outlist infoEndMarker with
    | none => .error .exit1
    | some pe =>
      if ps < pe then lineLoop (infoDetailLine outlist) ps (pe - ps) st else .ok st

/-- The summary pass of `parse_output_info_section` (source lines 606–629), with
the same window-location behaviour over the `info all` markers. -/
def infoAllPass (outlist : List String) (st : InfoState) : Except PyAbort InfoState :=
  match idxL? outlist infoAllStartMarker with
  | none => .error .exit1
  | some ps =>
    match idxL? outlist infoAllEndMarker with
    | none => .error .exit1
    | some pe =>
      if ps < pe then lineLoop (infoAllLine outlist) ps (pe - ps) st else .ok st

/-! ## Metric emission (`parse_output_info_section`, source lines 631–678) -/

/-- Status metric lines (source lines 631–632). -/
def statusMetricLines (sd : List (String × String)) (utc : String) : List String :=
  sd.map (fun kv => "ogg.process[" ++ kv.1 ++ ",status] " ++ utc ++ " \"" ++ kv.2 ++ "\"")

/-- One checkpoint-lag metric line (source lines 638–647): the recorded `HH:MM:SS`
display is split on `:` and converted to total seconds via
`int(h)*60*60 + int(m)*60 + int(s)`.  These lines sit outside any `try`, so a
malformed display propagates an uncaught exception. -/
def chkptlagLine (utc key disp : String) : Except PyAbort String :=
  let sl := pySplit ':' disp
  match sl.get? 0, sl.get? 1, sl.get? 2 with
  | some h, some m, some s =>
    match pyInt? h, pyInt? m, pyInt? s with
    | some hv, some mv, some sv =>
        .ok ("ogg.process[" ++ key ++ ",chkptlag] " ++ utc ++ " \"" ++
             toString (hv * 60 * 60 + mv * 60 + sv) ++ "\"")
    | _, _, _ => .error .uncaught
  | _, _, _ => .error .uncaught

/-- Checkpoint-lag metric lines for the whole dictionary (source lines 637–647). -/
def chkptlagMetricLines (cd : List (String × String)) (utc : String) :
    Except PyAbort (List String) :=
  match cd with
  | [] => .ok []
  | (k, v) :: rest =>
    match chkptlagLine utc k v with
    | .error e => .error e
    | .ok l =>
      match chkptlagMetricLines rest utc with
      | .error e => .error e
      | .ok ls => .ok (l :: ls)

/-- Per-process trail metric lines (source lines 652–657): five lines per registry
record, reading the positional value list at indices 0–4. -/
def processMetricLines (pd : List (String × List String)) (utc : String) :
    Except PyAbort (List String) :=
  match pd with
  | [] => .ok []
  | (k, v) :: rest =>
    match v.get? 0, v.get? 1, v.get? 2, v.get? 3, v.get? 4 with
    | some tn, some tt, some sq, some rb, some sc =>
      match processMetricLines rest utc with
      | .error e => .error e
      | .ok ls =>
        .ok (("ogg.process[" ++ k ++ ",trail_name] " ++ utc ++ " \"" ++ tn ++ "\"") ::
             ("ogg.process[" ++ k ++ ",trail_type] " ++ utc ++ " \"" ++ tt ++ "\"") ::
             ("ogg.process[" ++ k ++ ",seq] " ++ utc ++ " \"" ++ sq ++ "\"") ::
             ("ogg.process[" ++ k ++ ",rba] " ++ utc ++ " \"" ++ rb ++ "\"") ::
             ("ogg.process[" ++ k ++ ",scn] " ++ utc ++ " \"" ++ sc ++ "\"") :: ls)
    | _, _, _, _, _ => .error .uncaught

/-- The comma-separated JSON objects of the discovery document (source lines 662–666). -/
def jsonProcsAux : List String → String
  | [] => ""
  | [p] => "\x7b\"\x7b#OGG_PROCESS\x7d\":\"" ++ p ++ "\"\x7d"
  | p :: rest => "\x7b\"\x7b#OGG_PROCESS\x7d\":\"" ++ p ++ "\"\x7d, " ++ jsonProcsAux rest

/-- The discovery metric string (source lines 660–667):
`ogg.process.discovery <timestamp> {"data":[ ... ]}`. -/
def discoveryJson (procs : List String) (utc : String) : String :=
  "ogg.process.discovery " ++ utc ++ " \x7b\"data\":[ " ++ jsonProcsAux procs ++ "]\x7d"

/-- Whole `parse_output_info_section` (source lines 521–678): detail pass, summary
pass, then metric emission appended to the running `ogg_zabbix_list`, and the
discovery JSON string. -/
def parse_output_info_section (outlist : List String) (utc : String) (acc : List String) :
    Except PyAbort (InfoState × List String × String) :=
  match infoDetailPass outlist initInfoState with
  | .error e => .error e
  | .ok st =>
    match infoAllPass outlist st with
    | .error e => .error e
    | .ok st =>
      let acc := acc ++ statusMetricLines st.statusDict utc
      match chkptlagMetricLines st.checkpointDict utc with
      | .error e => .error e
      | .ok cl =>
        match processMetricLines st.processDict utc with
        | .error e => .error e
        | .ok pl => .ok (st, acc ++ cl ++ pl, discoveryJson st.processList utc)

/-! ## Static descriptor parser (`parse_output_get_static_settings`, source lines 487–519) -/

def bannerA : String := "Oracle GoldenGate Command Interpreter for"
def bannerB : String := "Oracle GoldenGate Administration Client for"

/-- One iteration of the preamble scan (source lines 505–513).  The state is the
pair `(ogg_database, ogg_version)`.  Note the line is split with a *plain*
`split(' ')` here (no `filter(None, ...)`), and the banner's database token is
`splitted_line[5]`. -/
def parseStaticLine (line : String) (st : String × String) :
    Except PyAbort (String × String) :=
  let sl := pySplit ' ' line
  let st1 : Except PyAbort (String × String) :=
    if hasSub line bannerA || hasSub line bannerB then
      match sl.get? 5 with
      | none => .error .exit1
      | some d => .ok (d, st.2)
    else .ok st
  match st1 with
  | .error e => .error e
  | .ok st2 =>
    match sl.get? 0 with
    | none => .error .exit1
    | some t0 =>
      if hasSub t0 "Version" then
        match sl.get? 1 with
        | none => .error .exit1
        | some v => .ok (st2.1, v)
      else .ok st2

/-- The preamble loop of `parse_output_get_static_settings`. -/
def staticLoop (outlist : List String) : Nat → Nat → (String × String) →
    Except PyAbort (String × String)
  | _, 0, st => .ok st
  | i, fuel + 1, st =>
    match outlist.get? i with
    | none => .error .exit1
    | some line =>
      match parseStaticLine line st with
      | .error e => .error e
      | .ok st' => staticLoop outlist (i + 1) fuel st'

/-- `parse_output_get_static_settings` (source lines 487–519): scan the lines before
the first `info *` start marker for the banner and `Version` lines; a missing
marker (or a malformed banner line) raises, and the `except` handler exits with
status 1.  Returns `(ogg_database, ogg_version)`, both of which start out `''`. -/
def parse_output_get_static_settings (outlist : List String) :
    Except PyAbort (String × String) :=
  match idxL? outlist infoStartMarker with
  | none => .error .exit1
  | some pe =>
    if 0 < pe then staticLoop outlist 0 pe ("", "") else .ok ("", "")

/-! ## Lag resolver (`parse_output_getlag_section`, source lines 680–734) -/

/-- How an iteration of the getlag loop aborts: `exitProg` is the
`sys.exit(1)` performed by the *inner* `except` handler around the
`outlist[i+1]` access (source lines 698–702); `caught` is any other exception,
which only the *outer* handler (source lines 719–721) sees — it logs and
continues. -/
inductive GetlagExc where
  | exitProg
  | caught
  deriving DecidableEq, Repr

/-- The getlag scanning loop (source lines 693–716).  Carries the most recently
seen process name and the growing `ogg_zabbix_list`.  Note the `Last record lag`
branch appends `'ogg.process ['` (with a space before the bracket, source line
705) while the `No records yet processed` and `Average Lag:` branches append
`'ogg.process['` (source lines 708, 716). -/
def getlagLoop (outlist : List String) (utc : String) :
    Nat → Nat → String → List String → (List String × Option GetlagExc)
  | _, 0, _, acc => (acc, none)
  | i, fuel + 1, pname, acc =>
    match outlist.get? i with
    | none => (acc, some .caught)
    | some line =>
      let sl := pyTokens line
      if hasSub (pyLower line) "sending getlag request to" then
        match sl.get? 5 with
        | none => (acc, some .caught)
        | some pname' =>
          match outlist.get? (i + 1) with
          | none => (acc, some .exitProg)
          | some nl =>
            if hasSub nl "Last record lag " then
              match (pyTokens nl).get? 3 with
              | none => (acc, some .caught)
              | some v =>
                getlagLoop outlist utc (i + 1) fuel pname'
                  (acc ++ ["ogg.process [" ++ pname' ++ ",lag] " ++ utc ++ " \"" ++
                           stripSeps v ++ "\""])
            else if hasSub nl "No records yet processed" then
              getlagLoop outlist utc (i + 1) fuel pname'
                (acc ++ ["ogg.process[" ++ pname' ++ ",lag] " ++ utc ++ " \"0\""])
            else
              getlagLoop outlist utc (i + 1) fuel pname' acc
      else if pyFind line "not currently running" > 0 then
        getlagLoop outlist utc (i + 1) fuel pname acc
      else if hasSub line "Average Lag:" then
        match sl.get? 2 with
        | none => (acc, some .caught)
        | some v =>
          getlagLoop outlist utc (i + 1) fuel pname
            (acc ++ ["ogg.process[" ++ pname ++ ",lag] " ++ utc ++ " \"" ++
                     stripSeps v ++ "\""])
      else
        getlagLoop outlist utc (i + 1) fuel pname acc

/-- `parse_output_getlag_section` (source lines 680–734): returns the final
`ogg_zabbix_list` and whether the invocation terminated.  Missing markers and any
exception other than the inner handler's are caught by the outer `except`, which
logs and lets the run continue with whatever was already collected; only the
inner handler's `sys.exit(1)` terminates. -/
def parse_output_getlag_section (outlist : List String) (utc : String)
    (acc : List String) : List String × Bool :=
  match idxL? outlist getlagStartMarker with
  | none => (acc, false)
  | some ps =>
    match idxL? outlist getlagEndMarker with
    | none => (acc, false)
    | some pe =>
      if ps < pe then
        match getlagLoop outlist utc ps (pe - ps) "" acc with
        | (l, some .exitProg) => (l, true)
        | (l, _) => (l, false)
      else (acc, false)

/-! ## Identity resolver (`parse_output_manager_identify`, source lines 736–807) -/

/-- Outcome of classic-mode manager identification.  `uncaughtExc` models an
exception with no live handler (the routine's `try` is commented out in the
source, lines 744 and 762–764). -/
inductive MgrResult where
  | uncaughtExc
  | exitNoPort
  | exitLookupFail
  | ok (zbxHostname : String) (managerEntry : Option (List String))
  deriving DecidableEq, Repr

/-- `re.search('Process ID ([0-9]*)', line).group(1)` (source line 757): the digit
run following the first `Process ID ` occurrence; `none` models the
`AttributeError` on a failed search. -/
def pidCapture? (line : String) : Option String :=
  match subFind? line "Process ID " with
  | none => none
  | some k => some ⟨(line.data.drop (k + 11)).takeWhile Char.isDigit⟩

/-- The `info mgr` window scan (source lines 750–759): find the first line with a
non-empty token list containing `Manager is running`, extract the port from the
sixth token (between the last `.` and the last `,`) and the manager PID, then
break. -/
def mgrLoop (outlist : List String) : Nat → Nat → Except PyAbort (Option (String × String))
  | _, 0 => .ok none
  | i, fuel + 1 =>
    match outlist.get? i with
    | none => .error .uncaught
    | some line =>
      let sl := pyTokens line
      if sl ≠ [] then
        if pyFind line "Manager is running" > -1 then
          match sl.get? 5 with
          | none => .error .uncaught
          | some t5 =>
            let port := pySlice t5 (pyRfind t5 "." + 1) (pyRfind t5 ",")
            match pidCapture? line with
            | none => .error .uncaught
            | some pid => .ok (some (port, pid))
        else mgrLoop outlist (i + 1) fuel
      else mgrLoop outlist (i + 1) fuel

/-- Zabbix host-name composition for the classic architecture (source lines
771–798).  `use_hostname = "NO"` is the instance-tag mode: the collaborator lookup
output (`none` models a raised lookup, whose handler exits) is used when
non-empty, with all non-word characters stripped; otherwise the uppercased short
hostname.  `use_hostname = "YES"` always uses the hostname form. -/
def zbx_hostname_classic (use_hostname : String) (lookup : Option String)
    (short_hostname port : String) : Except PyAbort String :=
  if use_hostname = "NO" then
    match lookup with
    | none => .error .exit1
    | some out =>
      if out ≠ "" then .ok ("OGG_" ++ stripNonWord out ++ "_" ++ port)
      else .ok ("OGG_" ++ pyUpper short_hostname ++ "_" ++ port)
  else .ok ("OGG_" ++ pyUpper short_hostname ++ "_" ++ port)

/-- `parse_output_manager_identify` for the classic architecture (source lines
736–798): locate the manager window by the four-`=` start marker (`list.index`
raising uncaught `ValueError` when absent — the `try` is commented out), scan it
for the running-manager line, fail with `sys.exit(1)` when no port was found, and
compose the Zabbix host name. -/
def parse_output_manager_identify_classic (outlist : List String)
    (use_hostname : String) (lookup : Option String) (short_hostname : String) :
    MgrResult :=
  match idxL? outlist mgrStartSearched with
  | none => .uncaughtExc
  | some ps =>
    match idxL? outlist mgrEndMarker with
    | none => .uncaughtExc
    | some pe =>
      let found : Except PyAbort (Option (String × String)) :=
        if ps < pe then mgrLoop outlist ps (pe - ps) else .ok none
      match found with
      | .error _ => .uncaughtExc
      | .ok none => .exitNoPort
      | .ok (some (port, pid)) =>
        if port = "" then .exitNoPort
        else
          match zbx_hostname_classic use_hostname lookup short_hostname port with
          | .error _ => .exitLookupFail
          | .ok zbx => .ok zbx (some ["NONE", "NONE", "0", "0", "0", pid])

/-! ## Memory augmenter PID list (`processes_memory`, source lines 809–817) -/

/-- The PID accumulation loop (source lines 814–816):
`if process_dict[key][5] not in ('-l', '0')` — note the first sentinel tested is
the string `'-l'` (dash, lowercase letter L), exactly as in the source. -/
def pidStringLoop : List (String × List String) → String → Except PyAbort String
  | [], s => .ok s
  | (_, v) :: rest, s =>
    match v.get? 5 with
    | none => .error .uncaught
    | some pid =>
      if pid ≠ "-l" ∧ pid ≠ "0" then pidStringLoop rest (s ++ "," ++ pid)
      else pidStringLoop rest s

/-- The comma-joined PID list handed to the OS `ps` query (source lines 812–817):
accumulate `,pid` per non-sentinel record, then drop the leading comma via
`pid_string[1:len(pid_string)]`. -/
def pid_string (pd : List (String × List String)) : Except PyAbort String :=
  match pidStringLoop pd "" with
  | .error e => .error e
  | .ok s => .ok (pySliceFrom s 1)

/-- The transport rendering of one metric line (source lines 886–894):
`<zbx_hostname> <metricLine>`. -/
def zabbixRender (zbx_hostname metricLine : String) : String :=
  zbx_hostname ++ " " ++ metricLine

/-- A preamble line that triggers neither recognizer of
`parse_output_get_static_settings`: it contains no banner phrase and its first
`split(' ')` token does not contain `Version`. -/
def staticNeutral (line : String) : Bool :=
  !(hasSub line bannerA) && !(hasSub line bannerB) &&
  !(hasSub ((pySplit ' ' line).headI) "Version")

/-! ## Helper lemmas -/

theorem idxL?_lt_length {l : List String} {x : String} {n : Nat}
    (h : idxL? l x = some n) : n < l.length := by
  induction l generalizing n with
  | nil => simp [idxL?] at h
  | cons a as ih =>
    simp only [idxL?] at h
    by_cases ha : a == x
    · simp [ha] at h
      simp [← h]
    · simp [ha] at h
      obtain ⟨m, hm, rfl⟩ := h
      have := ih hm
      simp
      omega

theorem get?_eq_some_of_lt {α : Type} {l : List α} {i : Nat}
    (h : i < l.length) : ∃ a, l.get? i = some a := by
  induction l generalizing i with
  | nil => simp at h
  | cons x xs ih =>
    cases i with
    | zero => exact ⟨x, rfl⟩
    | succ j =>
      simp at h
      exact ih (by omega)

theorem idxL?_eq_none {l : List String} {x : String} (h : x ∉ l) :
    idxL? l x = none := by
  induction l with
  | nil => rfl
  | cons a as ih =>
    simp at h
    simp [idxL?, ih h.2]
    intro he
    exact absurd he.symm h.1

theorem dropWhile_eq_self_of_all {p : Char → Bool} {l : List Char}
    (h : ∀ x ∈ l, p x = false) : l.dropWhile p = l := by
  cases l with
  | nil => rfl
  | cons c cs => simp [List.dropWhile_cons, h c (by simp)]

theorem pyStrip_eq_self {s : String} (h : ∀ x ∈ s.data, isWsCh x = false) :
    pyStrip s = s := by
  unfold pyStrip
  rw [dropWhile_eq_self_of_all h]
  rw [dropWhile_eq_self_of_all (fun x hx => h x (by simpa using hx))]
  rw [List.reverse_reverse]

theorem isDigit_not_ws {c : Char} (h : c.isDigit = true) : isWsCh c = false := by
  cases hw : isWsCh c
  · rfl
  · exfalso
    simp only [isWsCh, Bool.or_eq_true, beq_iff_eq] at hw
    rcases hw with ((rfl | rfl) | rfl) | rfl <;> exact absurd h (by decide)

theorem pyInt?_digits {s : String} (h1 : s.data ≠ [])
    (h2 : ∀ x ∈ s.data, x.isDigit = true) :
    pyInt? s = some ((digitsValAux s.data 0 : Nat) : Int) := by
  have hws : ∀ x ∈ s.data, isWsCh x = false := fun x hx => isDigit_not_ws (h2 x hx)
  unfold pyInt?
  rw [pyStrip_eq_self hws]
  have hall : s.data.all Char.isDigit = true := List.all_eq_true.mpr h2
  cases hd : s.data with
  | nil => exact absurd hd h1
  | cons c cs =>
    have hcd : c.isDigit = true := h2 c (by rw [hd]; simp)
    have hcm : c ≠ '-' := by rintro rfl; exact absurd hcd (by decide)
    have hcp : c ≠ '+' := by rintro rfl; exact absurd hcd (by decide)
    rw [hd] at hall
    simp [hcm, hcp, digitsVal?, hall]

theorem splitChAux_no_sep (sep : Char) :
    ∀ (A acc : List Char), (∀ x ∈ A, x ≠ sep) →
      splitChAux sep A acc = [⟨acc.reverse ++ A⟩] := by
  intro A
  induction A with
  | nil => intro acc _; simp [splitChAux]
  | cons c cs ih =>
    intro acc h
    have hc : (c == sep) = false := by simpa using h c (by simp)
    simp only [splitChAux, hc, Bool.false_eq_true, if_false]
    rw [ih (c :: acc) (fun x hx => h x (by simp [hx]))]
    simp

theorem splitChAux_sep_append (sep : Char) :
    ∀ (A acc ds : List Char), (∀ x ∈ A, x ≠ sep) →
      splitChAux sep (A ++ sep :: ds) acc = ⟨acc.reverse ++ A⟩ :: splitChAux sep ds [] := by
  intro A
  induction A with
  | nil =>
    intro acc ds _
    simp [splitChAux]
  | cons c cs ih =>
    intro acc ds h
    have hc : (c == sep) = false := by simpa using h c (by simp)
    show splitChAux sep (c :: (cs ++ sep :: ds)) acc = _
    simp only [splitChAux, hc, Bool.false_eq_true, if_false]
    rw [ih (c :: acc) ds (fun x hx => h x (by simp [hx]))]
    simp

theorem pySplit_colon_three (a b c : String)
    (ha : ∀ x ∈ a.data, x ≠ ':') (hb : ∀ x ∈ b.data, x ≠ ':')
    (hc : ∀ x ∈ c.data, x ≠ ':') :
    pySplit ':' (a ++ ":" ++ b ++ ":" ++ c) = [a, b, c] := by
  unfold pySplit
  have hdata : (a ++ ":" ++ b ++ ":" ++ c).data =
      a.data ++ ':' :: (b.data ++ ':' :: c.data) := by
    simp [String.data_append, show (":" : String).data = [':'] from rfl]
  rw [hdata]
  rw [splitChAux_sep_append ':' a.data [] (b.data ++ ':' :: c.data) ha]
  rw [splitChAux_sep_append ':' b.data [] c.data hb]
  rw [splitChAux_no_sep ':' c.data [] hc]
  simp

theorem splitChAux_ne_nil (sep : Char) :
    ∀ (cs acc : List Char), splitChAux sep cs acc ≠ [] := by
  intro cs
  induction cs with
  | nil => intro acc; simp [splitChAux]
  | cons c cs ih =>
    intro acc
    simp only [splitChAux]
    split
    · simp
    · exact ih (c :: acc)

theorem pySplit_get?_zero (sep : Char) (s : String) :
    (pySplit sep s).get? 0 = some ((pySplit sep s).headI) := by
  cases hq : pySplit sep s with
  | nil => exact absurd hq (splitChAux_ne_nil sep s.data [])
  | cons a as => rfl

theorem parseStaticLine_neutral {line : String} (h : staticNeutral line = true)
    (st : String × String) : parseStaticLine line st = .ok st := by
  simp only [staticNeutral, Bool.and_eq_true, Bool.not_eq_true'] at h
  obtain ⟨⟨hA, hB⟩, hV⟩ := h
  unfold parseStaticLine
  rw [hA, hB]
  simp only [Bool.or_self, Bool.false_eq_true, if_false]
  cases hq : pySplit ' ' line with
  | nil => exact absurd hq (splitChAux_ne_nil ' ' line.data [])
  | cons t0 rest =>
    rw [hq] at hV
    simp only [List.headI] at hV
    simp [hV]

theorem staticLoop_neutral (outlist : List String) :
    ∀ (fuel i : Nat) (st : String × String), i + fuel ≤ outlist.length →
      (∀ j line, j < i + fuel → outlist.get? j = some line → staticNeutral line = true) →
      staticLoop outlist i fuel st = .ok st := by
  intro fuel
  induction fuel with
  | zero => intro i st _ _; rfl
  | succ f ih =>
    intro i st h hneutral
    obtain ⟨line, hline⟩ := get?_eq_some_of_lt (l := outlist) (i := i) (by omega)
    simp only [staticLoop]
    rw [hline]
    show (match parseStaticLine line st with
          | Except.error e => Except.error e
          | Except.ok st' => staticLoop outlist (i + 1) f st') = Except.ok st
    rw [parseStaticLine_neutral (hneutral i line (by omega) hline)]
    exact ih (i + 1) st (by omega) (fun j l hj hl => hneutral j l (by omega) hl)

theorem getlagLoop_no_exit (outlist : List String) (utc : String) :
    ∀ (fuel i : Nat) (pname : String) (acc : List String),
      i + fuel < outlist.length →
      (getlagLoop outlist utc i fuel pname acc).2 ≠ some .exitProg := by
  intro fuel
  induction fuel with
  | zero =>
    intro i pname acc _
    simp [getlagLoop]
  | succ f ih =>
    intro i pname acc h
    simp only [getlagLoop]
    split
    · simp
    · split
      · split
        · simp
        · split
          · next hnone =>
            exact absurd (List.get?_eq_none.mp hnone) (by omega)
          · split
            · split
              · simp
              · exact ih _ _ _ (by omega)
            · split
              · exact ih _ _ _ (by omega)
              · exact ih _ _ _ (by omega)
      · split
        · exact ih _ _ _ (by omega)
        · split
          · split
            · simp
            · exact ih _ _ _ (by omega)
          · exact ih _ _ _ (by omega)

/-! ## Claim theorems -/

/-- Claim C1 (code bug): the claim — like the spec — says the detail pass scans the
lines *following* a process-opening line for the `Status`, `Process ID`,
`Trail Name`, `Log Read Checkpoint File`, `SCN` and `Checkpoint Lag` recognizers.
In the source every recognizer is nested inside the
`if splitted_line[0] in ('EXTRACT', 'REPLICAT')` branch (lines 550–593), so only
the opening line itself is ever scanned.  Evaluating the embedded detail pass on a
window whose `Checkpoint Lag` and `Process ID` lines follow the opener shows the
dictionaries stay empty and the PID stays at its `'0'` default: the recognizers
never see the subsequent lines. -/
theorem c1_recognizers_skip_follow_on_lines :
    infoDetailPass
      ["==== INFO * SECTION START ====",
       "EXTRACT    EXT1      Last Started 2024-01-01 12:00   Status RUNNING",
       "Checkpoint Lag       00:01:30 (updated 00:00:01 ago)",
       "Process ID           12345",
       "==== INFO * SECTION END ===="] initInfoState =
    .ok { processList := ["EXT1"], statusDict := [("EXT1", "RUNNING")],
          checkpointDict := [], processDict := [("EXT1", ["", "", "0", "0", "0", "0"])],
          processName := "EXT1", processType := "EXTRACT", statusName := "RUNNING",
          processTrail := "", processTrailType := "", processSeq := "0",
          processRba := "0", processScn := "0", processPid := "0" } := by
  rfl

/-- Claim C2 (code bug): the `Last record lag` branch of the lag resolver emits
`'ogg.process ['` with a space before the bracket (source line 705), unlike the
`No records yet processed` branch (line 708) and every other per-process metric,
so the two lag metrics do *not* share the exact claimed shape
`ogg.process[<name>,<key>] <timestamp> "<value>"`. -/
theorem c2_last_record_lag_metric_has_stray_space :
    parse_output_getlag_section
      ["==== GETLAG SECTION START ====",
       "Sending GETLAG request to EXTRACT EXT1 ...",
       "Last record lag 5 seconds.",
       "Sending GETLAG request to REPLICAT REP1 ...",
       "No records yet processed.",
       "==== GETLAG SECTION END ===="] "100" [] =
    (["ogg.process [EXT1,lag] 100 \"5\"", "ogg.process[REP1,lag] 100 \"0\""], false) := by
  rfl

/-- Claim C3 counterexample: an inverted required window (`info *` end marker
before the start marker, both present) is a silent no-op — the detail pass
returns with the registry unchanged instead of failing as the claim states. -/
theorem c3_inverted_window_is_silent_noop :
    infoDetailPass ["==== INFO * SECTION END ====", "==== INFO * SECTION START ===="]
      initInfoState = .ok initInfoState := by
  rfl

/-- Claim C3 (amended): locating either required window fails fatally
(`sys.exit(1)` via the broad `except` handler) when a marker line is absent, but
when the end marker's index is less than or equal to the start marker's index the
pass silently skips the window and leaves the registry state unchanged. -/
theorem c3_window_location (outlist : List String) (st : InfoState) :
    ((idxL? outlist infoStartMarker = none ∨ idxL? outlist infoEndMarker = none) →
      infoDetailPass outlist st = .error .exit1)
    ∧ (∀ ps pe, idxL? outlist infoStartMarker = some ps →
        idxL? outlist infoEndMarker = some pe → pe ≤ ps →
        infoDetailPass outlist st = .ok st)
    ∧ ((idxL? outlist infoAllStartMarker = none ∨ idxL? outlist infoAllEndMarker = none) →
      infoAllPass outlist st = .error .exit1)
    ∧ (∀ ps pe, idxL? outlist infoAllStartMarker = some ps →
        idxL? outlist infoAllEndMarker = some pe → pe ≤ ps →
        infoAllPass outlist st = .ok st) := by
  refine ⟨?_, ?_, ?_, ?_⟩
  · intro h
    unfold infoDetailPass
    rcases h with h | h
    · rw [h]
    · rw [h]
      cases idxL? outlist infoStartMarker <;> rfl
  · intro ps pe hs he hle
    unfold infoDetailPass
    rw [hs, he]
    simp [Nat.not_lt.mpr hle]
  · intro h
    unfold infoAllPass
    rcases h with h | h
    · rw [h]
    · rw [h]
      cases idxL? outlist infoAllStartMarker <;> rfl
  · intro ps pe hs he hle
    unfold infoAllPass
    rw [hs, he]
    simp [Nat.not_lt.mpr hle]

/-- Witness for `c3_window_location` at concrete inputs: an inverted `info *`
window and an inverted `info all` window are silently skipped, and inputs with a
marker missing exit fatally. -/
theorem c3_window_location_witness :
    infoDetailPass ["==== INFO * SECTION END ====", "xx", "==== INFO * SECTION START ===="]
      initInfoState = .ok initInfoState
    ∧ infoDetailPass [] initInfoState = .error .exit1
    ∧ infoAllPass ["==== INFO ALL SECTION END ====", "==== INFO ALL SECTION START ===="]
      initInfoState = .ok initInfoState
    ∧ infoAllPass [] initInfoState = .error .exit1 := by
  refine ⟨?_, ?_, ?_, ?_⟩
  · exact (c3_window_location _ _).2.1 2 0 (by rfl) (by rfl) (by omega)
  · exact (c3_window_location _ _).1 (Or.inl rfl)
  · exact (c3_window_location _ _).2.2.2 1 0 (by rfl) (by rfl) (by omega)
  · exact (c3_window_location _ _).2.2.1 (Or.inl rfl)

/-- Claim C4 (code bug): the PID filter of `processes_memory` tests membership in
`('-l', '0')` — dash-lowercase-ell, not `'-1'` (source line 815, against the
line's own `skip fake process_id` comment) — so a registry record whose
`processId` is the `"-1"` sentinel *does* contribute its PID to the comma-joined
list handed to `ps`, contradicting the claim.  The `"0"` sentinel is filtered. -/
theorem c4_minus_one_sentinel_reaches_pid_list :
    pid_string
      [("EXT1", ["", "", "0", "0", "0", "12345"]),
       ("MANAGER", ["NONE", "NONE", "0", "0", "0", "-1"]),
       ("JAGENT", ["NONE", "NONE", "0", "0", "0", "0"])] = .ok "12345,-1" := by
  rfl

/-- Claim C5: no exception inside the lag-resolver loop terminates the invocation.
The only terminating path is the inner handler's `sys.exit(1)` on the
`outlist[i+1]` access (source lines 698–702), and it is unreachable: every loop
index is below the end-marker index, which is itself below the line count, so the
next line always exists.  In particular, when a `sending getlag request to` line
is the *last* line of the input the end marker is absent, the `list.index` lookup
raises before the loop, and the outer handler logs and continues with the metrics
already collected. -/
theorem c5_getlag_exceptions_never_fatal (outlist : List String) (utc : String)
    (acc : List String) :
    (parse_output_getlag_section outlist utc acc).2 = false
    ∧ (getlagEndMarker ∉ outlist →
        parse_output_getlag_section outlist utc acc = (acc, false)) := by
  constructor
  · unfold parse_output_getlag_section
    cases hs : idxL? outlist getlagStartMarker with
    | none => rfl
    | some ps =>
      cases he : idxL? outlist getlagEndMarker with
      | none => rfl
      | some pe =>
        by_cases hlt : ps < pe
        · simp only [hlt, if_true]
          have hpe := idxL?_lt_length he
          have hne := getlagLoop_no_exit outlist utc (pe - ps) ps "" acc (by omega)
          rcases hr : getlagLoop outlist utc ps (pe - ps) "" acc with ⟨l, exc⟩
          rw [hr] at hne
          match exc, hne with
          | none, _ => rfl
          | some .caught, _ => rfl
          | some .exitProg, hne => exact absurd rfl hne
        · simp [hlt]
  · intro hnot
    unfold parse_output_getlag_section
    cases hs : idxL? outlist getlagStartMarker with
    | none => rfl
    | some ps => rw [idxL?_eq_none hnot]

/-- Witness for `c5_getlag_exceptions_never_fatal` at the claim's edge case: a
window whose `sending getlag request to` line is the last line of the input (no
end marker, hence no next line); the run does not terminate and keeps the
already-collected (empty) metric list. -/
theorem c5_getlag_exceptions_never_fatal_witness :
    (parse_output_getlag_section
      ["==== GETLAG SECTION START ====",
       "Sending GETLAG request to EXTRACT EXT1 ..."] "100" []).2 = false
    ∧ parse_output_getlag_section
        ["==== GETLAG SECTION START ====",
         "Sending GETLAG request to EXTRACT EXT1 ..."] "100" [] = ([], false) := by
  constructor
  · exact (c5_getlag_exceptions_never_fatal _ _ _).1
  · exact (c5_getlag_exceptions_never_fatal _ _ _).2 (by decide)

/-- Claim C6 counterexample: a preamble containing neither the product-interpreter
banner nor a `Version` line does *not* abort the run — the parse succeeds and
returns empty database and version values, which downstream metrics then emit. -/
theorem c6_missing_descriptors_not_fatal :
    parse_output_get_static_settings
      ["hello world", "==== INFO * SECTION START ===="] = .ok ("", "") := by
  rfl

/-- Claim C6 (amended): the static-settings parse is fatal only when the
`info *` start marker itself is absent (the `list.index` `ValueError` reaches the
`except` handler, which exits); when the marker is present but no preamble line
matches the banner or `Version` recognizers, the parse succeeds with empty
database and version values instead of failing. -/
theorem c6_static_settings_behaviour (outlist : List String) :
    (idxL? outlist infoStartMarker = none →
      parse_output_get_static_settings outlist = .error .exit1)
    ∧ (∀ pe, idxL? outlist infoStartMarker = some pe →
        (∀ i line, i < pe → outlist.get? i = some line → staticNeutral line = true) →
        parse_output_get_static_settings outlist = .ok ("", "")) := by
  constructor
  · intro h
    unfold parse_output_get_static_settings
    rw [h]
  · intro pe hpe hneutral
    unfold parse_output_get_static_settings
    rw [hpe]
    by_cases h0 : 0 < pe
    · simp only [h0, if_true]
      exact staticLoop_neutral outlist pe 0 ("", "")
        (by have := idxL?_lt_length hpe; omega)
        (fun j l hj hl => hneutral j l (by omega) hl)
    · simp [h0]

/-- Witness for `c6_static_settings_behaviour`: with no marker the parse exits
fatally; with a marker and a neutral preamble it returns empty values. -/
theorem c6_static_settings_behaviour_witness :
    parse_output_get_static_settings [] = .error .exit1
    ∧ parse_output_get_static_settings
        ["some preamble text", "==== INFO * SECTION START ===="] = .ok ("", "") := by
  constructor
  · exact (c6_static_settings_behaviour []).1 rfl
  · refine (c6_static_settings_behaviour _).2 1 (by decide) ?_
    intro i line hi hl
    have h0 : i = 0 := by omega
    subst h0
    have : line = "some preamble text" := by
      simpa using hl.symm
    subst this
    decide

/-- Claim C7: for any recorded checkpoint-lag display `HH:MM:SS` (digit fields),
the emitted `chkptlag` metric line carries exactly
`HH*3600 + MM*60 + SS` as its quoted value, in the shape
`ogg.process[<key>,chkptlag] <timestamp> "<seconds>"`. -/
theorem c7_chkptlag_seconds (utc key a b c : String)
    (ha1 : a.data ≠ []) (ha2 : ∀ x ∈ a.data, x.isDigit = true)
    (hb1 : b.data ≠ []) (hb2 : ∀ x ∈ b.data, x.isDigit = true)
    (hc1 : c.data ≠ []) (hc2 : ∀ x ∈ c.data, x.isDigit = true) :
    chkptlagLine utc key (a ++ ":" ++ b ++ ":" ++ c) =
      .ok ("ogg.process[" ++ key ++ ",chkptlag] " ++ utc ++ " \"" ++
           toString (digitsValAux a.data 0 * 3600 + digitsValAux b.data 0 * 60 +
                     digitsValAux c.data 0) ++ "\"") := by
  have hnc : ∀ (s : String), (∀ x ∈ s.data, x.isDigit = true) → ∀ x ∈ s.data, x ≠ ':' := by
    intro s hs x hx
    have := hs x hx
    rintro rfl
    exact absurd this (by decide)
  unfold chkptlagLine
  rw [show pySplit ':' (a ++ ":" ++ b ++ ":" ++ c) = [a, b, c] from
    pySplit_colon_three a b c (hnc a ha2) (hnc b hb2) (hnc c hc2)]
  show (match pyInt? a, pyInt? b, pyInt? c with
        | some hv, some mv, some sv =>
            Except.ok ("ogg.process[" ++ key ++ ",chkptlag] " ++ utc ++ " \"" ++
              toString (hv * 60 * 60 + mv * 60 + sv) ++ "\"")
        | _, _, _ => Except.error PyAbort.uncaught) = _
  rw [pyInt?_digits ha1 ha2, pyInt?_digits hb1 hb2, pyInt?_digits hc1 hc2]
  have hval : ((digitsValAux a.data 0 : Nat) : Int) * 60 * 60 +
      ((digitsValAux b.data 0 : Nat) : Int) * 60 + ((digitsValAux c.data 0 : Nat) : Int) =
      ((digitsValAux a.data 0 * 3600 + digitsValAux b.data 0 * 60 +
        digitsValAux c.data 0 : Nat) : Int) := by
    push_cast
    ring
  simp only [hval]
  rfl

/-- Witness for `c7_chkptlag_seconds`: the display `00:01:30` yields the metric
value `90`. -/
theorem c7_chkptlag_seconds_witness :
    chkptlagLine "100" "EXT1" ("00" ++ ":" ++ "01" ++ ":" ++ "30") =
      .ok ("ogg.process[" ++ "EXT1" ++ ",chkptlag] " ++ "100" ++ " \"" ++
           toString (digitsValAux "00".data 0 * 3600 + digitsValAux "01".data 0 * 60 +
                     digitsValAux "30".data 0) ++ "\"")
    ∧ chkptlagLine "100" "EXT1" "00:01:30" = .ok "ogg.process[EXT1,chkptlag] 100 \"90\"" := by
  constructor
  · exact c7_chkptlag_seconds "100" "EXT1" "00" "01" "30"
      (by decide) (by decide) (by decide) (by decide) (by decide) (by decide)
  · rfl

/-- Claim C8: under `USE_HOSTNAME_FOR_ZABBIX = 'NO'` (the instance-tag mode) with
resolved manager port `p`, a non-empty lookup value `My Replication!` yields the
host identifier `OGG_MyReplication_<p>` (non-word characters stripped by
`re.sub('\W+', '', ...)`), and an empty lookup value falls back to
`OGG_<uppercased short hostname>_<p>`. -/
theorem c8_instance_tag_host_identifier (h p : String) :
    zbx_hostname_classic "NO" (some "My Replication!") h p =
      .ok ("OGG_MyReplication_" ++ p)
    ∧ zbx_hostname_classic "NO" (some "") h p =
      .ok ("OGG_" ++ pyUpper h ++ "_" ++ p) := by
  constructor <;> rfl

/-- Claim C9 (code bug): on a standard REPLICAT detail block — opener line, then a
checkpoint-file line whose path ends in `rt000042`, then a line whose fourth token
is `1024` — the claim (and the spec's test property) expects
`sequence = "42"`, `relativeByteAddress = "1024"`, `trailType = "LOCALTRAIL"` and
the trail path up to the digit run.  Because the `Log Read Checkpoint File`
recognizer is nested inside the opener branch (source lines 550, 576) it never
examines the checkpoint-file line, and the registry keeps the reset defaults. -/
theorem c9_replicat_checkpoint_file_not_parsed :
    infoDetailPass
      ["==== INFO * SECTION START ====",
       "REPLICAT   REP1      Last Started 2024-01-01 12:00   Status RUNNING",
       "Log Read Checkpoint File /u01/ogg/dirdat/rt000042",
       "2024-01-01 11:59:55  RBA 1024",
       "==== INFO * SECTION END ===="] initInfoState =
    .ok { processList := ["REP1"], statusDict := [("REP1", "RUNNING")],
          checkpointDict := [], processDict := [("REP1", ["", "", "0", "0", "0", "0"])],
          processName := "REP1", processType := "REPLICAT", statusName := "RUNNING",
          processTrail := "", processTrailType := "", processSeq := "0",
          processRba := "0", processScn := "0", processPid := "0" } := by
  rfl

/-- Claim C10: `prepare_ogg_script` emits the manager start marker with three
trailing `=` (source line 434), while classic-mode manager identification searches
for the four-`=` form (source line 745) with no live exception handler (the `try`
is commented out, lines 744/762–764).  On any transcript whose lines are either
markers emitted by the script or lines other than the searched marker, the
`list.index` lookup raises an uncaught exception and the port-extraction branch is
never reached. -/
theorem c10_manager_marker_mismatch :
    mgrStartSearched ∉ prepare_ogg_script_markers
    ∧ ∀ (outlist : List String) (uh : String) (lo : Option String) (sh : String),
        (∀ l ∈ outlist, l ∈ prepare_ogg_script_markers ∨ l ≠ mgrStartSearched) →
        parse_output_manager_identify_classic outlist uh lo sh = .uncaughtExc := by
  refine ⟨by decide, ?_⟩
  intro outlist uh lo sh hmark
  have hnot : mgrStartSearched ∉ outlist := by
    intro hmem
    rcases hmark _ hmem with h | h
    · exact absurd h (by decide)
    · exact h rfl
  unfold parse_output_manager_identify_classic
  rw [idxL?_eq_none hnot]

/-- Witness for `c10_manager_marker_mismatch`: a concrete transcript produced with
the script's own (three-`=`) manager marker, on which identification aborts with
an uncaught exception. -/
theorem c10_manager_marker_mismatch_witness :
    parse_output_manager_identify_classic
      ["==== MANAGER SECTION START ===",
       "Manager is running (IP port srv1.7809, Process ID 4242).",
       "==== MANAGER SECTION END ===="] "YES" none "srv1" = .uncaughtExc := by
  exact c10_manager_marker_mismatch.2 _ _ _ _ (by decide)

end OggMonitor
